/-
Verification of the AutoMeetAI batch media-processing pipeline.

This file gives a shallow embedding, in Lean 4, of the components of the
pipeline that the specification's testable properties talk about:

* `RateLimiter` (src/utils/rate_limiter.py): the token-bucket limiter.
* `TranscriptionCache` (src/utils/transcription_cache.py): the fingerprint
  cache with corruption auto-eviction.
* `UtteranceIterator` / `OptimizedTranscriptionResult`
  (src/models/optimized_transcription_result.py): the lazy, restartable
  disk-backed utterance store and its temp-file lifecycle.
* `AutoMeetAI.process_video` and the sequential path of
  `AutoMeetAI.process_videos` (src/automeetai.py): the single-item
  orchestrator with progress reporting and cooperative cancellation, and
  the batch coordinator.

Modelling conventions:
* Python floats (timestamps, token counts, progress values) are modelled
  as exact rationals (`ℚ`); `time.sleep(t)` is modelled as the clock
  advancing by exactly `t`.
* Hashing (`hashlib.md5`) is modelled by the identity on the hashed key
  string: every property proved here depends only on the hash being a
  deterministic function of the key data, never on its length or on
  collision behaviour.
* Disk I/O is modelled by explicit stores (association lists) threaded
  through the functions; `pickle` serialization is modelled by a record
  holding exactly the fields the source serializes.
* Collaborator calls (conversion, transcription, formatting) are opaque
  injected functions; their invocations are recorded in an event trace so
  that "collaborator X was (not) called" is a statement about the trace.
-/
import Mathlib

namespace AutoMeetAI

/-! ## Rate limiter (src/utils/rate_limiter.py)

`RateLimiter.__init__` stores `rate`, `per`, `burst`, sets `tokens = burst`
and `last_refill = time.time()`.  All arithmetic is on Python floats,
modelled here as `ℚ`. -/

structure RateLimiter where
  rate : ℚ
  per : ℚ
  burst : ℚ
  tokens : ℚ
  lastRefill : ℚ
deriving DecidableEq, Repr

/-- `RateLimiter(rate, per, burst)` constructed at wall-clock time `now`
(rate_limiter.py lines 11-25): the bucket starts full. -/
def RateLimiter.init (rate per burst now : ℚ) : RateLimiter :=
  { rate := rate, per := per, burst := burst, tokens := burst, lastRefill := now }

/-- `RateLimiter._refill` (rate_limiter.py lines 27-41): lazily add
`elapsed * (rate / per)` tokens, capped at `burst`, and stamp the time. -/
def RateLimiter.refill (rl : RateLimiter) (now : ℚ) : RateLimiter :=
  let elapsed := now - rl.lastRefill
  let newTokens := elapsed * (rl.rate / rl.per)
  { rl with tokens := min (rl.tokens + newTokens) rl.burst, lastRefill := now }

/-- Outcome of one `consume` call.  `slept` records the durations of the
`time.sleep` calls performed (the source contains a single, non-looping
`time.sleep`, so this list has length 0 or 1 by construction of
`RateLimiter.consume` — which is itself the content of claim C10). -/
structure ConsumeOutcome where
  granted : Bool
  slept : List ℚ
  state : RateLimiter
deriving DecidableEq, Repr

/-- `RateLimiter.consume(tokens, wait)` called at wall-clock time `now`
(rate_limiter.py lines 43-75).  The sleep is modelled as the clock
advancing by exactly the computed `wait_time` before the second
`_refill`. -/
def RateLimiter.consume (rl : RateLimiter) (now : ℚ) (tokens : ℚ) (wait : Bool) :
    ConsumeOutcome :=
  let rl := rl.refill now
  if tokens ≤ rl.tokens then
    ⟨true, [], { rl with tokens := rl.tokens - tokens }⟩
  else if wait then
    let deficit := tokens - rl.tokens
    let waitTime := deficit * (rl.per / rl.rate)
    let rl := rl.refill (now + waitTime)
    ⟨true, [waitTime], { rl with tokens := rl.tokens - tokens }⟩
  else
    ⟨false, [], rl⟩

/-! ## Data model (src/models/transcription_result.py)

`Utterance` and `TranscriptionResult` are Python `@dataclass`es, so their
`==` is field-wise structural equality; we mirror them as structures with
derived `DecidableEq`.  The dataclass field `end` is a Lean keyword and is
named `stop` here. -/

structure Utterance where
  speaker : String
  text : String
  start : Option ℚ := none
  stop : Option ℚ := none
deriving DecidableEq, Repr

structure Speaker where
  id : String
  name : String
deriving DecidableEq, Repr

structure TranscriptionResult where
  utterances : List Utterance
  text : String
  audio_file : String
  id : Option String := none
  speakers : Option (List Speaker) := none
  language : Option String := none
deriving DecidableEq, Repr

/-! ## Fingerprint cache (src/utils/transcription_cache.py)

A cache entry on disk is one pickle file per key.  `set` serializes
exactly `{utterances (as dicts of the four Utterance fields), text,
audio_file}` (lines 138-143); `get` rebuilds a `TranscriptionResult` from
those fields, leaving `id`/`speakers`/`language` at their dataclass
defaults (lines 96-109).  A blob whose unpickling/reconstruction raises is
modelled as `Blob.corrupt`. -/

structure SerializedResult where
  utterances : List Utterance
  text : String
  audio_file : String
deriving DecidableEq, Repr

inductive Blob where
  | ok (d : SerializedResult)
  | corrupt
deriving DecidableEq, Repr

/-- The cache directory: one blob per cache-key "file name". -/
abbrev CacheStore := List (String × Blob)

def CacheStore.lookup (store : CacheStore) (key : String) : Option Blob :=
  match store with
  | [] => none
  | (k, b) :: rest => if k = key then some b else CacheStore.lookup rest key

/-- `os.remove` of the entry's file (transcription_cache.py line 118). -/
def CacheStore.erase (store : CacheStore) (key : String) : CacheStore :=
  match store with
  | [] => []
  | (k, b) :: rest =>
      if k = key then CacheStore.erase rest key
      else (k, b) :: CacheStore.erase rest key

/-- Overwrite-or-insert of the entry's file (transcription_cache.py
lines 145-146). -/
def CacheStore.insert (store : CacheStore) (key : String) (b : Blob) : CacheStore :=
  (key, b) :: store.erase key

namespace TranscriptionCache

/-- `TranscriptionCache._generate_cache_key` (lines 34-60): the key data is
`f"{abs_path}:{file_size}:{file_mtime}"`, with size and mtime falling back
to `0` when `os.stat` raises.  `hashlib.md5` is modelled as the identity
on this string (only determinism of the hash is used by any theorem). -/
def generate_cache_key (absPath : String) (stats : Option (ℕ × ℚ)) : String :=
  match stats with
  | some (size, mtime) => absPath ++ ":" ++ toString size ++ ":" ++ toString mtime
  | none => absPath ++ ":0:0"

/-- `TranscriptionCache.get` (lines 74-121).  Returns the reconstructed
result (or `none` on a miss) together with the store as left on disk: a
corrupt blob is deleted and reported as a miss (lines 114-121). -/
def get (store : CacheStore) (absPath : String) (stats : Option (ℕ × ℚ)) :
    Option TranscriptionResult × CacheStore :=
  let key := generate_cache_key absPath stats
  match store.lookup key with
  | none => (none, store)
  | some (Blob.ok d) =>
      (some { utterances := d.utterances, text := d.text, audio_file := d.audio_file },
       store)
  | some Blob.corrupt => (none, store.erase key)

/-- `TranscriptionCache.set` (lines 123-153), with the serialization and
file write succeeding (failures are logged and return `False`; the claims
here only concern the successful path). -/
def set (store : CacheStore) (absPath : String) (stats : Option (ℕ × ℚ))
    (utterances : List Utterance) (text audio_file : String) : CacheStore :=
  store.insert (generate_cache_key absPath stats)
    (Blob.ok { utterances := utterances, text := text, audio_file := audio_file })

end TranscriptionCache

/-! ## Error taxonomy (src/exceptions.py)

Only the classes `process_video` / `process_videos` can raise are
modelled.  `src/exceptions.py` defines `AutoMeetAIError` and subclasses
`ConfigError`, `FileError`, `ServiceError`, `TranscriptionError`,
`FormattingError` (and sub-subclasses); it defines **no**
cancellation-specific class.  Cancellation checks raise the bare base
class `AutoMeetAIError` (automeetai.py lines 288, 294, 632, 642, 688,
804, 839), which is also the generic wrapper for unanticipated errors
(line 552). -/

inductive Err where
  | fileError (msg : String)
  | serviceError (msg : String)
  | transcriptionError (msg : String)
  | formattingError (msg : String)
  | base (msg : String)
deriving DecidableEq, Repr

/-- Whether a raised error is an instance of a *dedicated subclass* of
`AutoMeetAIError` (as the spec's taxonomy requires for each named error
kind), as opposed to the bare base class — which the source uses both for
cancellation and as the generic wrapper for unanticipated errors. -/
def Err.isDedicatedSubclass : Err → Bool
  | .base _ => false
  | _ => true

/-- The message of `AutoMeetAIError` raised by `process_video`'s
`check_cancellation` for an external cancellation request
(automeetai.py line 288). -/
def cancelMsg : String := "Operação cancelada pelo usuário"

/-! ## Single-item orchestrator `AutoMeetAI.process_video`
(src/automeetai.py lines 204-554)

The collaborators and configuration reads are modelled as pure inputs in
`PVEnv`; collaborator invocations are recorded as `Event`s; every
`report_progress(stage, p)` call is recorded as
`(stage, current_step + p, total_steps)` exactly as the source computes it
(lines 277-281, `total_steps = 5`).

Cancellation is cooperative: `check_cancellation` (lines 283-294) raises
iff the external callback returns true or the internal manager's flag is
set.  Both are monotone flags within one call, so a whole run is
characterised by the first cancellation check that observes the request:
`cancelAtCheck = some k` means checks `k, k+1, ...` observe it (checks are
numbered 1 after validation, 2 after cache lookup, 3 after conversion,
4 after transcription, 5 after persistence, 6 before the cache write,
7 before deleting the intermediate audio file — source lines 304, 328,
351, 422, 510, 522, 532).

Modelled simplifications, none load-bearing for the claims:
* `generate_unique_filename` succeeds and yields `env.audioFile`;
* the transcription service and the `AssemblyAIAdapter` conversion are
  fused into `env.transcript : Option (utterances × text)`; the adapter
  sets `audio_file` to the converted file's name and leaves
  `id`/`speakers`/`language` at their defaults (assemblyai_adapter.py
  lines 42-46); both the synchronous and the streaming path invoke the
  transcription collaborator exactly once, recorded as one
  `Event.transcribe`;
* only the single-format persistence path (`output_formats = None`,
  lines 495-516) is modelled;
* interpolated fragments of log/error message strings (file names,
  exception texts) are kept only where a claim depends on them. -/

inductive Event where
  | convert
  | transcribe
  | save
  | cacheWrite
  | deleteAudio
deriving DecidableEq, Repr

structure PVEnv where
  useCache : Bool
  forceReprocess : Bool
  saveAudio : Bool
  validationOk : Bool
  absPath : String
  fileStats : Option (ℕ × ℚ)
  audioFile : String
  outputFormat : String
  convertOk : Bool
  transcript : Option (List Utterance × String)
  useOptimized : Bool
  largeThreshold : ℕ
  saveOk : Bool
  cancelAtCheck : Option ℕ
deriving DecidableEq, Repr

/-- Whether the `k`-th cancellation check of the run observes the
(monotone) cancellation request. -/
def cancelledAt (cancel : Option ℕ) (k : ℕ) : Bool :=
  match cancel with
  | some j => j ≤ k
  | none => false

/-- `process_video`'s return value: either the eager
`TranscriptionResult` or, for large transcriptions with the optimized
model enabled, an `OptimizedTranscriptionResult` wrapper holding the same
utterances, text and audio file
(`OptimizedTranscriptionResult.from_standard_result`,
optimized_transcription_result.py lines 391-406).  These are distinct
Python classes; the dataclass `__eq__` of `TranscriptionResult` returns
`False` (`NotImplemented`) when compared with the wrapper. -/
inductive PVResult where
  | eager (r : TranscriptionResult)
  | optimized (utterances : List Utterance) (text : String) (audio_file : String)
deriving DecidableEq, Repr

/-- The logical content `(utterances, text, audio_file)` of either result
form; this is what `TranscriptionCache.set` serializes. -/
def PVResult.content : PVResult → List Utterance × String × String
  | .eager r => (r.utterances, r.text, r.audio_file)
  | .optimized u t a => (u, t, a)

instance {ε α : Type} [DecidableEq ε] [DecidableEq α] : DecidableEq (Except ε α) := fun a b =>
  match a, b with
  | .ok x, .ok y =>
      if h : x = y then isTrue (by rw [h]) else isFalse (fun hh => h (by cases hh; rfl))
  | .ok _, .error _ => isFalse (fun h => Except.noConfusion h)
  | .error _, .ok _ => isFalse (fun h => Except.noConfusion h)
  | .error x, .error y =>
      if h : x = y then isTrue (by rw [h]) else isFalse (fun hh => h (by cases hh; rfl))

structure PVOut where
  result : Except Err PVResult
  store : CacheStore
  events : List Event
  progress : List (String × ℚ × ℚ)
deriving DecidableEq, Repr

/-- `AutoMeetAI.process_video` (automeetai.py lines 204-554). -/
def process_video (env : PVEnv) (store : CacheStore) : PVOut :=
  -- Step 1: validation (lines 296-306); `validate_file_path` raising
  -- `ValueError` becomes `FileError`.
  let p1 : List (String × ℚ × ℚ) := [("Validando arquivo de entrada", 1/2, 5)]
  if !env.validationOk then
    { result := .error (.fileError "Invalid video file"), store := store,
      events := [], progress := p1 }
  else
  let p2 := p1 ++ [("Arquivo validado", 1, 5)]
  if cancelledAt env.cancelAtCheck 1 then
    { result := .error (.base cancelMsg), store := store, events := [], progress := p2 }
  else
  -- Step 2: cache lookup (lines 308-328); `transcription_cache` exists iff
  -- `use_cache` (lines 100-102); a read failure is treated as a miss
  -- inside `TranscriptionCache.get` already.
  let p3 := p2 ++ [("Verificando cache", 3/2, 5)]
  let looked := if env.useCache && !env.forceReprocess
                then TranscriptionCache.get store env.absPath env.fileStats
                else (none, store)
  match looked with
  | (some r, store1) =>
      -- Cache hit (lines 315-321): `current_step` is still 1, so the two
      -- reports are (1+1, 5) and (1+total_steps, 5) = (6, 5).
      { result := .ok (.eager r), store := store1, events := [],
        progress := p3 ++ [("Usando resultado em cache", 2, 5),
                           ("Processamento concluído", 6, 5)] }
  | (none, store1) =>
  let p4 := p3 ++ [("Cache verificado", 2, 5)]
  if cancelledAt env.cancelAtCheck 2 then
    { result := .error (.base cancelMsg), store := store1, events := [], progress := p4 }
  else
  -- audio filename generation (lines 330-334), modelled as succeeding
  -- Step 3: conversion (lines 336-355); the `check_cancellation` after the
  -- conversion sits inside the `try`, so its `AutoMeetAIError` is re-wrapped
  -- as `ServiceError` by the `except` clause (lines 352-355).
  let p5 := p4 ++ [("Iniciando conversão de vídeo para áudio", 21/10, 5),
                   ("Convertendo vídeo para áudio", 5/2, 5)]
  let ev1 := [Event.convert]
  if !env.convertOk then
    { result := .error (.serviceError "Audio conversion failed"), store := store1,
      events := ev1, progress := p5 }
  else
  let p6 := p5 ++ [("Conversão concluída", 3, 5)]
  if cancelledAt env.cancelAtCheck 3 then
    { result := .error (.serviceError ("Error during audio conversion: " ++ cancelMsg)),
      store := store1, events := ev1, progress := p6 }
  else
  -- Step 4: transcription (lines 357-426); the post-stage check sits inside
  -- the `try`, so its error is re-wrapped as `TranscriptionError`
  -- (lines 423-426).
  let p7 := p6 ++ [("Iniciando transcrição", 31/10, 5), ("Transcrevendo áudio", 7/2, 5)]
  let ev2 := ev1 ++ [Event.transcribe]
  match env.transcript with
  | none =>
      { result := .error (.transcriptionError "Transcription service returned empty result"),
        store := store1, events := ev2, progress := p7 }
  | some (utts, text) =>
  let p8 := p7 ++ [("Transcrição concluída", 4, 5)]
  if cancelledAt env.cancelAtCheck 4 then
    { result := .error (.transcriptionError ("Error during transcription: " ++ cancelMsg)),
      store := store1, events := ev2, progress := p8 }
  else
  -- Result wrapping (lines 428-463).
  let std : TranscriptionResult :=
    { utterances := utts, text := text, audio_file := env.audioFile }
  let result := if decide (env.largeThreshold < utts.length) && env.useOptimized
                then PVResult.optimized std.utterances std.text std.audio_file
                else PVResult.eager std
  -- Step 5: persistence, single-format path (lines 465-516); the post-stage
  -- check sits inside the `try`, so its error is re-wrapped as
  -- `FormattingError` (lines 513-516).
  let p9 := p8 ++ [("Iniciando salvamento dos resultados", 41/10, 5),
                   ("Salvando no formato " ++ env.outputFormat, 9/2, 5)]
  let ev3 := ev2 ++ [Event.save]
  if !env.saveOk then
    { result := .error (.formattingError "Failed to save transcription"), store := store1,
      events := ev3, progress := p9 }
  else
  let p10 := p9 ++ [("Salvamento concluído", 5, 5)]
  if cancelledAt env.cancelAtCheck 5 then
    { result := .error (.formattingError
        ("Error saving to " ++ env.outputFormat ++ " format: " ++ cancelMsg)),
      store := store1, events := ev3, progress := p10 }
  else
  -- Cache write (lines 518-525): the cancellation check and the write sit in
  -- a `try` whose `except` logs and continues, so a cancellation here only
  -- skips the write.
  let writeCache := env.useCache && !cancelledAt env.cancelAtCheck 6
  let store2 := if writeCache
                then TranscriptionCache.set store1 env.absPath env.fileStats
                       result.content.1 result.content.2.1 result.content.2.2
                else store1
  let ev4 := if writeCache then ev3 ++ [Event.cacheWrite] else ev3
  -- Cleanup (lines 528-536): same swallowing `try`; a cancellation here only
  -- skips deleting the intermediate audio file.
  let ev5 := if !env.saveAudio && !cancelledAt env.cancelAtCheck 7
             then ev4 ++ [Event.deleteAudio] else ev4
  { result := .ok result, store := store2, events := ev5,
    progress := p10 ++ [("Processamento concluído", 5, 5)] }

/-! ## Lazy result store (src/models/optimized_transcription_result.py)

The backing file is a newline-delimited sequence of JSON records.
`json.dumps` of the four-field dict written by
`_save_utterances_to_file` (lines 174-182) always yields a non-blank
line holding exactly those fields, and `json.loads` recovers them
(lines 68-74); the JSON text itself is abstracted to the record it
denotes. -/

inductive Line where
  | blank
  | record (speaker text : String) (start stop : Option ℚ)
deriving DecidableEq, Repr

def Line.isRecord : Line → Bool
  | .blank => false
  | .record .. => true

/-- `OptimizedTranscriptionResult._save_utterances_to_file`
(lines 159-184): one JSON line per utterance; no blank lines are ever
written. -/
def save_utterances_to_file (us : List Utterance) : List Line :=
  us.map fun u => Line.record u.speaker u.text u.start u.stop

/-- The `total_count` computed by `UtteranceIterator.__init__`
(lines 33-37): the number of non-blank lines of the file. -/
def totalCount (lines : List Line) : ℕ := (lines.filter Line.isRecord).length

/-- The scan performed by one `UtteranceIterator.__next__` call
(lines 59-74) from the line at position `current_index`: the `for` loop
matches `i == self.current_index`, increments `current_index`, skips a
blank line (`continue`, after which the next line matches again), and
parses and returns the first record line found.  Returns the utterance
together with the number of lines consumed. -/
def scanRecord : List Line → Option (Utterance × ℕ)
  | [] => none
  | Line.blank :: rest => (scanRecord rest).map fun p => (p.1, p.2 + 1)
  | Line.record s t a b :: _ => some (⟨s, t, a, b⟩, 1)

/-- `UtteranceIterator.__next__` (lines 46-77): `StopIteration` (modelled
as `none`) once `current_index` has reached `total_count`; otherwise scan
from `current_index` (falling off the end of the file also raises
`StopIteration`, line 77). -/
def utteranceNext (lines : List Line) (currentIndex : ℕ) : Option (Utterance × ℕ) :=
  if totalCount lines ≤ currentIndex then none
  else match scanRecord (lines.drop currentIndex) with
       | some (u, k) => some (u, currentIndex + k)
       | none => none

lemma scanRecord_consumed_pos :
    ∀ {l : List Line} {u : Utterance} {k : ℕ}, scanRecord l = some (u, k) → 1 ≤ k := by
  intro l
  induction l with
  | nil => intro u k h; simp [scanRecord] at h
  | cons hd tl ih =>
      intro u k h
      cases hd with
      | blank =>
          simp only [scanRecord, Option.map_eq_some'] at h
          obtain ⟨⟨u', k'⟩, hp, hk⟩ := h
          cases hk
          omega
      | record s t a b =>
          simp only [scanRecord, Option.some_inj] at h
          cases h
          exact le_refl 1

lemma utteranceNext_lt {lines : List Line} {i j : ℕ} {u : Utterance}
    (h : utteranceNext lines i = some (u, j)) :
    i < totalCount lines ∧ i < j := by
  unfold utteranceNext at h
  split at h
  · exact absurd h (by simp)
  · next hcount =>
      constructor
      · omega
      · split at h
        · next u' k hscan =>
            cases h
            have := scanRecord_consumed_pos hscan
            omega
        · exact absurd h (by simp)

/-- A full Python `for` loop over the iterator starting at cursor
position `currentIndex`: repeatedly call `__next__` until
`StopIteration`, collecting the yielded utterances. -/
def iterate (lines : List Line) (currentIndex : ℕ) : List Utterance :=
  match h : utteranceNext lines currentIndex with
  | none => []
  | some (u, j) => u :: iterate lines j
termination_by totalCount lines - currentIndex
decreasing_by
  have hl := utteranceNext_lt h
  exact Nat.sub_lt_sub_left hl.1 hl.2

/-- `UtteranceIterator` (lines 14-86): the backing file's contents plus
the persistent cursor `current_index` (`total_count` is determined by the
lines, so it is not duplicated here). -/
structure UtteranceIterator where
  lines : List Line
  current_index : ℕ
deriving DecidableEq, Repr

/-- `UtteranceIterator.__init__` (lines 20-37). -/
def UtteranceIterator.init (lines : List Line) : UtteranceIterator :=
  { lines := lines, current_index := 0 }

/-- `UtteranceIterator.__iter__` (lines 39-44): reset the cursor to 0 and
return the same iterator object. -/
def UtteranceIterator.iter (it : UtteranceIterator) : UtteranceIterator :=
  { it with current_index := 0 }

/-- Draining the iterator with a `for` loop (which first calls
`__iter__`, then `__next__` until exhaustion): the yielded sequence, and
the iterator with its cursor as the loop leaves it (at `total_count`). -/
def UtteranceIterator.drain (it : UtteranceIterator) : List Utterance × UtteranceIterator :=
  let reset := it.iter
  (iterate reset.lines reset.current_index, { reset with current_index := totalCount reset.lines })

/-! ### Temp-file lifecycle of `OptimizedTranscriptionResult`

`OptimizedTranscriptionResult` (lines 128-406) defines `__init__`,
`_save_utterances_to_file`, `__del__`, the `utterances` property,
`get_utterances_chunk`, `get_utterance_count`, `to_formatted_text`,
`format`, `save_to_file`, `save_as_multiple_formats`,
`to_standard_result` and `from_standard_result` — and **no**
context-manager (`__enter__`/`__exit__`), `close` or other explicit
release method.  The only cleanup hook is `__del__`, which the CPython
runtime invokes when the garbage collector finalizes the object, not when
a lexical scope ends. -/

/-- The two candidate moments for releasing the backing temp file: the end
of the owning scope (explicit scoped release), or finalization of the
object by the garbage collector. -/
inductive LifecycleEvent where
  | scopeEnd
  | gcFinalize
deriving DecidableEq, Repr

/-- On which lifecycle events the class runs its cleanup code: only
`__del__` (lines 186-195) exists, so cleanup runs at GC finalization and
at no other moment; in particular nothing runs when the owning scope
ends. -/
def cleanupRunsOn : LifecycleEvent → Bool
  | .gcFinalize => true
  | .scopeEnd => false

/-- The guard of `__del__` (lines 191-195): the file is removed iff
`self._utterances_file` is set (truthy: a non-empty string) and
`startswith(tempfile.gettempdir())` holds; `str.startswith` is modelled
as character-list prefix. -/
def delRemovesFile (utterances_file : Option String) (tempDir : String) : Bool :=
  match utterances_file with
  | some p => (p != "") && tempDir.data.isPrefixOf p.data
  | none => false

/-- The path produced by `tempfile.mkstemp(suffix='.jsonl',
prefix='utterances_')` in `_save_utterances_to_file` (line 170): a fresh
name under `tempfile.gettempdir()`. -/
def mkstempPath (tempDir unique : String) : String :=
  tempDir ++ "/utterances_" ++ unique ++ ".jsonl"

/-! ## Batch coordinator `AutoMeetAI.process_videos`
(src/automeetai.py lines 556-871), sequential path

The model covers the sequential execution path (taken when
`parallel_processing` is false or at most one file is given,
lines 832-853); the parallel path runs the *same* worker function
`process_file_worker` for each file and applies the same
cancellation/error logic in its `as_completed` loop (lines 794-831).
`use_internal_cancellation` is fixed at its default `True`.

Model inputs: `externalAtInit` is the value of the external
`cancellation_check` callback at the initial check (line 647);
`externalAtLoopCheck i` its value at the sequential loop's pre-dispatch
check for file `i` (line 836); `externalAtWorkerCheck i` its value at the
worker's own check (line 713).  `reqDuring i` says whether
`request_cancellation` is called (setting the internal manager's flag)
while item `i` is being processed, after that item's last cancellation
check — requests observed by the item itself are expressed through
`(itemEnv i).cancelAtCheck`.  The per-item progress-callback wrapping
(lines 691-705) is not modelled; no claim refers to it.  The shared
`results`/`errors` dicts are modelled as insertion logs, which agree with
the dicts whenever the file list has no duplicates. -/

def Err.message : Err → String
  | .fileError m => m
  | .serviceError m => m
  | .transcriptionError m => m
  | .formattingError m => m
  | .base m => m

structure BatchState where
  store : CacheStore
  internalFlag : Bool
  results : List (String × Option PVResult)
  errors : List (String × String)
  trace : List (ℕ × Event)
deriving DecidableEq, Repr

structure BatchEnv where
  files : List String
  continue_on_error : Bool
  internalFlag0 : Bool
  externalAtInit : Bool
  externalAtLoopCheck : ℕ → Bool
  externalAtWorkerCheck : ℕ → Bool
  reqDuring : ℕ → Bool
  itemEnv : ℕ → PVEnv

/-- `process_file_worker` (lines 708-781): returns the `error_msg`
component of the worker's `(file, result, error_msg)` triple, together
with the updated shared state.  Note that the worker's own cancellation
check (line 713) consults **only** the external callback and returns an
error message instead of raising; on that path neither `results` nor
`errors` is touched. -/
def process_file_worker (env : BatchEnv) (i : ℕ) (file : String) (st : BatchState) :
    Option String × BatchState :=
  if env.externalAtWorkerCheck i then
    (some "Operation cancelled by user", st)
  else
    -- `process_video` is called with use_internal_cancellation=True and
    -- therefore resets the shared cancellation flag first (lines 266-268).
    let out := process_video (env.itemEnv i) st.store
    let st1 := { st with store := out.store,
                         internalFlag := env.reqDuring i,
                         trace := st.trace ++ out.events.map (fun e => (i, e)) }
    match out.result with
    | .ok r => (none, { st1 with results := st1.results ++ [(file, some r)] })
    | .error e =>
        -- lines 760-781: record the error and a `None` result; return an
        -- error message only when continue_on_error is false.
        let st2 := { st1 with errors := st1.errors ++ [(file, e.message)],
                              results := st1.results ++ [(file, none)] }
        if env.continue_on_error then (none, st2) else (some e.message, st2)

/-- The sequential loop of `process_videos` (lines 832-853).  The
pre-dispatch check (line 836) consults **only** the external callback.
The Python `raise` discards the local `results`/`errors` dicts; the state
component returned alongside the error records what had executed up to
that point. -/
def seqLoop (env : BatchEnv) : ℕ → List String → BatchState → BatchState × Option Err
  | _, [], st => (st, none)
  | i, file :: rest, st =>
    if env.externalAtLoopCheck i then
      (st, some (.base "Batch processing cancelled by user"))
    else
      match process_file_worker env i file st with
      | (some m, st') =>
          if env.continue_on_error then seqLoop env (i + 1) rest st'
          else (st', some (.base ("Batch processing stopped due to error: " ++ m)))
      | (none, st') => seqLoop env (i + 1) rest st'

/-- `AutoMeetAI.process_videos` (lines 556-871), sequential path.  With
`use_internal_cancellation=True` the cancellation manager is reset before
anything else (lines 619-624), so the initial check (line 647) reads a
cleared internal flag: the value `internalFlag0` the flag had on entry is
discarded. -/
def process_videos (env : BatchEnv) (store : CacheStore) : BatchState × Option Err :=
  let flag := false    -- self.reset_cancellation() at line 621
  let st0 : BatchState :=
    { store := store, internalFlag := flag, results := [], errors := [], trace := [] }
  if env.externalAtInit then
    (st0, some (.base "Batch processing cancelled by user"))
  else if flag then
    -- internal half of the initial check (line 637); unreachable because of
    -- the reset above
    (st0, some (.base "Batch processing cancelled by user"))
  else
    seqLoop env 0 env.files st0

/-- A concrete, well-behaved environment for `process_video`: validation
passes, the file stats are readable, every collaborator succeeds, caching
is enabled and no cancellation is requested. -/
def testEnv : PVEnv :=
  { useCache := true, forceReprocess := false, saveAudio := false,
    validationOk := true, absPath := "/v/a.mp4", fileStats := some (10, 5),
    audioFile := "out/a1.mp3", outputFormat := "txt", convertOk := true,
    transcript := some ([⟨"Speaker A", "hi", none, none⟩], "hi"),
    useOptimized := true, largeThreshold := 1000, saveOk := true,
    cancelAtCheck := none }

/-- Like `testEnv`, but the transcription yields more utterances than
`large_transcription_threshold`, so (with the optimized model enabled,
its default) `process_video` wraps its result as an
`OptimizedTranscriptionResult`. -/
def largeEnv : PVEnv :=
  { testEnv with
    largeThreshold := 1,
    transcript := some ([⟨"Speaker A", "a", none, none⟩,
                         ⟨"Speaker B", "b", none, none⟩], "ab") }

/-- The per-file entries the batch loop appends to the shared results
dict, given each item's `process_video` outcome: a successful item
contributes its result, a failed item contributes `None`
(automeetai.py lines 743-745 and 765-767). -/
def entryOf (outcome : ℕ → Except Err PVResult) : ℕ → List String → List (String × Option PVResult)
  | _, [] => []
  | i, f :: fs => (f, (outcome i).toOption) :: entryOf outcome (i + 1) fs

/-- A well-behaved item environment with caching disabled, so its outcome
does not depend on the cache store. -/
def goodItem : PVEnv := { testEnv with useCache := false }

/-- Like `goodItem`, but the conversion collaborator fails. -/
def badItem : PVEnv := { goodItem with convertOk := false }

/-- A two-file batch in which cancellation is requested internally: the
flag is already set when `process_videos` is entered (`internalFlag0`),
and `request_cancellation` is called again while item 0 is being
processed (after item 0's last internal check); the external callback
never reports cancellation. -/
def c3Env : BatchEnv :=
  { files := ["a.mp4", "b.mp4"],
    continue_on_error := true,
    internalFlag0 := true,
    externalAtInit := false,
    externalAtLoopCheck := fun _ => false,
    externalAtWorkerCheck := fun _ => false,
    reqDuring := fun i => i == 0,
    itemEnv := fun _ => goodItem }

/-- A three-file batch whose external cancellation callback first reports
`true` at the pre-dispatch check of item 1. -/
def c3ExtEnv : BatchEnv :=
  { c3Env with
    files := ["a.mp4", "b.mp4", "c.mp4"],
    internalFlag0 := false,
    reqDuring := fun _ => false,
    externalAtLoopCheck := fun k => k == 1 }

/-- A five-file batch in which exactly input #3 (index 2) makes the
conversion collaborator fail; `continue_on_error` is true. -/
def c6Env : BatchEnv :=
  { files := ["a.mp4", "b.mp4", "c.mp4", "d.mp4", "e.mp4"],
    continue_on_error := true,
    internalFlag0 := false,
    externalAtInit := false,
    externalAtLoopCheck := fun _ => false,
    externalAtWorkerCheck := fun _ => false,
    reqDuring := fun _ => false,
    itemEnv := fun i => if i = 2 then badItem else goodItem }

/-! ## Supporting lemmas -/

lemma cancelledAt_none (k : ℕ) : cancelledAt none k = false := rfl

lemma cancelledAt_some (j k : ℕ) : cancelledAt (some j) k = decide (j ≤ k) := rfl

lemma CacheStore.lookup_erase (store : CacheStore) (key : String) :
    (store.erase key).lookup key = none := by
  induction store with
  | nil => rfl
  | cons hd tl ih =>
      obtain ⟨k, b⟩ := hd
      by_cases h : k = key
      · simpa [CacheStore.erase, h] using ih
      · simpa [CacheStore.erase, CacheStore.lookup, h] using ih

lemma CacheStore.lookup_insert (store : CacheStore) (key : String) (b : Blob) :
    (store.insert key b).lookup key = some b := by
  simp [CacheStore.insert, CacheStore.lookup]

lemma totalCount_save (us : List Utterance) :
    totalCount (save_utterances_to_file us) = us.length := by
  induction us with
  | nil => rfl
  | cons u rest ih =>
      simp only [save_utterances_to_file, List.map_cons] at ih ⊢
      simp [totalCount, List.filter_cons, Line.isRecord] at ih ⊢
      exact ih

lemma utteranceNext_save (pre post : List Utterance) :
    utteranceNext (save_utterances_to_file (pre ++ post)) pre.length
      = match post with
        | [] => none
        | u :: _ => some (u, pre.length + 1) := by
  have hdrop : (save_utterances_to_file (pre ++ post)).drop pre.length
      = save_utterances_to_file post := by
    simp only [save_utterances_to_file, List.map_append]
    rw [show pre.length = (pre.map fun u => Line.record u.speaker u.text u.start u.stop).length
          by simp]
    exact List.drop_left _ _
  unfold utteranceNext
  rw [totalCount_save, hdrop]
  cases post with
  | nil => simp
  | cons u rest =>
      rw [if_neg (by simp)]
      rfl

lemma iterate_save (post : List Utterance) :
    ∀ pre : List Utterance,
      iterate (save_utterances_to_file (pre ++ post)) pre.length = post := by
  induction post with
  | nil =>
      intro pre
      rw [iterate, utteranceNext_save]
  | cons u rest ih =>
      intro pre
      rw [iterate, utteranceNext_save]
      have h1 : pre.length + 1 = (pre ++ [u]).length := by simp
      have h2 : pre ++ u :: rest = (pre ++ [u]) ++ rest := by simp
      simp only [h2, h1]
      rw [ih (pre ++ [u])]

/-- A worker whose own cancellation check does not fire, under
`continue_on_error = true`: it never returns an error message, records
exactly one results entry (`Except.toOption` of the item outcome), leaves
the internal flag at `reqDuring i`, and appends the item's collaborator
events to the trace. -/
lemma process_file_worker_run (env : BatchEnv) (i : ℕ) (file : String) (st : BatchState)
    (hW : env.externalAtWorkerCheck i = false) (hcont : env.continue_on_error = true) :
    process_file_worker env i file st
      = (none,
         { store := (process_video (env.itemEnv i) st.store).store,
           internalFlag := env.reqDuring i,
           results := st.results
             ++ [(file, ((process_video (env.itemEnv i) st.store).result).toOption)],
           errors := st.errors
             ++ (match (process_video (env.itemEnv i) st.store).result with
                 | .ok _ => []
                 | .error e => [(file, e.message)]),
           trace := st.trace
             ++ (process_video (env.itemEnv i) st.store).events.map (fun e => (i, e)) }) := by
  rcases hres : (process_video (env.itemEnv i) st.store).result with e | r
  · simp [process_file_worker, hW, hres, hcont, Except.toOption]
  · simp [process_file_worker, hW, hres, Except.toOption]

/-- The sequential loop with no external cancellation and
`continue_on_error = true` finishes without raising and records one
results entry per file. -/
lemma seqLoop_complete (env : BatchEnv)
    (hcont : env.continue_on_error = true)
    (hLoop : ∀ k, env.externalAtLoopCheck k = false)
    (hW : ∀ k, env.externalAtWorkerCheck k = false) :
    ∀ (fs : List String) (i : ℕ) (st : BatchState),
      (seqLoop env i fs st).2 = none
      ∧ (seqLoop env i fs st).1.results.length = st.results.length + fs.length := by
  intro fs
  induction fs with
  | nil => intro i st; exact ⟨rfl, by simp [seqLoop]⟩
  | cons f rest ih =>
      intro i st
      have hw := process_file_worker_run env i f st (hW i) hcont
      have hstep : seqLoop env i (f :: rest) st
          = seqLoop env (i + 1) rest (process_file_worker env i f st).2 := by
        simp only [seqLoop, hLoop i, Bool.false_eq_true, if_false]
        rw [hw]
      rw [hstep]
      obtain ⟨h1, h2⟩ := ih (i + 1) (process_file_worker env i f st).2
      refine ⟨h1, ?_⟩
      rw [h2, hw]
      simp
      omega

/-- The sequential loop when the external callback first reports `true` at
the pre-dispatch check of item `j`: the loop raises the base
`AutoMeetAIError`, files `j, j+1, ...` get no results entry, and no
collaborator event of any item `≥ j` is in the trace. -/
lemma seqLoop_cancelAt (env : BatchEnv) (j : ℕ)
    (hcont : env.continue_on_error = true)
    (hW : ∀ k, env.externalAtWorkerCheck k = false)
    (hj : env.externalAtLoopCheck j = true) :
    ∀ (fs : List String) (i : ℕ) (st : BatchState),
      i ≤ j → j < i + fs.length →
      (∀ k, i ≤ k → k < j → env.externalAtLoopCheck k = false) →
      (seqLoop env i fs st).2 = some (.base "Batch processing cancelled by user")
      ∧ (seqLoop env i fs st).1.results.length = st.results.length + (j - i)
      ∧ (∀ p ∈ (seqLoop env i fs st).1.trace, p ∈ st.trace ∨ p.1 < j) := by
  intro fs
  induction fs with
  | nil =>
      intro i st h1 h2 _
      simp only [List.length_nil, Nat.add_zero] at h2
      omega
  | cons f rest ih =>
      intro i st hij hlt hbefore
      by_cases hieq : i = j
      · subst hieq
        refine ⟨by simp [seqLoop, hj], by simp [seqLoop, hj], ?_⟩
        intro p hp
        simp only [seqLoop, hj, if_true] at hp
        exact Or.inl hp
      · have hi_lt : i < j := lt_of_le_of_ne hij hieq
        have hw := process_file_worker_run env i f st (hW i) hcont
        have hstep : seqLoop env i (f :: rest) st
            = seqLoop env (i + 1) rest (process_file_worker env i f st).2 := by
          simp only [seqLoop, hbefore i le_rfl hi_lt, Bool.false_eq_true, if_false]
          rw [hw]
        rw [hstep]
        obtain ⟨h1, h2, h3⟩ := ih (i + 1) (process_file_worker env i f st).2
          (by omega) (by simp at hlt ⊢; omega)
          (fun k hk1 hk2 => hbefore k (by omega) hk2)
        refine ⟨h1, ?_, ?_⟩
        · rw [h2, hw]
          simp
          omega
        · intro p hp
          rcases h3 p hp with hmem | hsmall
          · rw [hw] at hmem
            simp only [List.mem_append, List.mem_map] at hmem
            rcases hmem with h | ⟨e, _, hpe⟩
            · exact Or.inl h
            · right
              rw [← hpe]
              exact hi_lt
          · exact Or.inr hsmall

/-- The sequential loop with no external cancellation, when every item's
outcome is store-independent: the results list is exactly one entry per
file, holding `Except.toOption` of that item's outcome. -/
lemma seqLoop_outcomes (env : BatchEnv) (outcome : ℕ → Except Err PVResult)
    (hcont : env.continue_on_error = true)
    (hLoop : ∀ k, env.externalAtLoopCheck k = false)
    (hW : ∀ k, env.externalAtWorkerCheck k = false) :
    ∀ (fs : List String) (i : ℕ) (st : BatchState),
      (∀ k s, i ≤ k → k < i + fs.length →
        (process_video (env.itemEnv k) s).result = outcome k) →
      (seqLoop env i fs st).2 = none
      ∧ (seqLoop env i fs st).1.results = st.results ++ entryOf outcome i fs := by
  intro fs
  induction fs with
  | nil => intro i st _; exact ⟨rfl, by simp [seqLoop, entryOf]⟩
  | cons f rest ih =>
      intro i st hout
      have hw := process_file_worker_run env i f st (hW i) hcont
      have hstep : seqLoop env i (f :: rest) st
          = seqLoop env (i + 1) rest (process_file_worker env i f st).2 := by
        simp only [seqLoop, hLoop i, Bool.false_eq_true, if_false]
        rw [hw]
      rw [hstep]
      obtain ⟨h1, h2⟩ := ih (i + 1) (process_file_worker env i f st).2
        (fun k s hk1 hk2 => hout k s (by omega) (by simp at hk2 ⊢; omega))
      refine ⟨h1, ?_⟩
      rw [h2, hw]
      simp only [entryOf, hout i st.store le_rfl (by simp)]
      simp

/-- Exactly one entry of `entryOf` is `none` when exactly the index `bad`
(within range) fails. -/
lemma entryOf_countP (r : ℕ → PVResult) (bad : ℕ) (e : Err) :
    ∀ (fs : List String) (i : ℕ),
      (entryOf (fun k => if k = bad then Except.error e else Except.ok (r k)) i fs).countP
          (fun p => p.2.isNone)
        = if i ≤ bad ∧ bad < i + fs.length then 1 else 0 := by
  intro fs
  induction fs with
  | nil =>
      intro i
      simp only [entryOf, List.countP_nil, List.length_nil, Nat.add_zero]
      rw [if_neg (by omega)]
  | cons f rest ih =>
      intro i
      simp only [entryOf, List.countP_cons]
      rw [ih (i + 1)]
      by_cases hib : i = bad
      · subst hib
        simp only [List.length_cons]
        rw [if_neg (by omega), if_pos (show i ≤ i ∧ i < i + (rest.length + 1) by omega)]
        simp [Except.toOption]
      · simp only [if_neg hib, List.length_cons]
        simp only [Except.toOption]
        split_ifs with h1 h2 h2 <;> simp_all <;> omega

/-- The entry at position `m` of `entryOf`. -/
lemma entryOf_getElem (outcome : ℕ → Except Err PVResult) :
    ∀ (fs : List String) (i m : ℕ),
      (entryOf outcome i fs)[m]?
        = fs[m]?.map (fun f => (f, (outcome (i + m)).toOption)) := by
  intro fs
  induction fs with
  | nil => intro i m; simp [entryOf]
  | cons f rest ih =>
      intro i m
      cases m with
      | zero => simp [entryOf]
      | succ n =>
          simp only [entryOf, List.getElem?_cons_succ]
          rw [ih (i + 1) n]
          have : i + 1 + n = i + (n + 1) := by omega
          rw [this]

/-! ## Claim theorems -/

/-- C5: `RateLimiter.consume(tokens, wait)` first refills lazily from
elapsed wall-clock time, capping the bucket at `burst`; if enough tokens
are available they are deducted and `true` is returned with no sleep; if
insufficient and `wait=false`, `false` is returned immediately; if
insufficient and `wait=true`, the call sleeps for exactly the computed
deficit time `deficit * (per / rate)` and then returns `true`. -/
theorem claim_C5_rate_limiter_consume (rl : RateLimiter) (now n : ℚ)
    (hrate : 0 < rl.rate) (hper : 0 < rl.per) :
    ((rl.refill now).tokens
        = min (rl.tokens + (now - rl.lastRefill) * (rl.rate / rl.per)) rl.burst)
    ∧ (∀ w : Bool, n ≤ (rl.refill now).tokens →
        rl.consume now n w
          = ⟨true, [], { rl.refill now with tokens := (rl.refill now).tokens - n }⟩)
    ∧ ((rl.refill now).tokens < n →
        rl.consume now n false = ⟨false, [], rl.refill now⟩)
    ∧ ((rl.refill now).tokens < n →
        (rl.consume now n true).granted = true
        ∧ (rl.consume now n true).slept
            = [(n - (rl.refill now).tokens) * (rl.per / rl.rate)]) := by
  refine ⟨rfl, ?_, ?_, ?_⟩
  · intro w h
    simp only [RateLimiter.consume]
    rw [if_pos h]
  · intro h
    simp only [RateLimiter.consume]
    rw [if_neg (not_le.mpr h)]
    rfl
  · intro h
    simp only [RateLimiter.consume]
    rw [if_neg (not_le.mpr h)]
    exact ⟨rfl, rfl⟩

/-- C5 witness: the spec's worked example — a limiter with rate=2 per 1s,
burst=2, created at time 0: consuming 2 tokens at time 0 succeeds with no
sleep, and a third `consume(1, wait=True)` at time 0 sleeps for exactly
1/2 second and returns `true`. -/
theorem claim_C5_rate_limiter_consume_witness :
    0 < (2 : ℚ) ∧ 0 < (1 : ℚ) ∧
    ((RateLimiter.init 2 1 2 0).consume 0 2 false).granted = true ∧
    ((RateLimiter.init 2 1 2 0).consume 0 2 false).slept = [] ∧
    (((RateLimiter.init 2 1 2 0).consume 0 2 false).state.consume 0 1 true).granted = true ∧
    (((RateLimiter.init 2 1 2 0).consume 0 2 false).state.consume 0 1 true).slept
      = [1/2] := by
  have h2 : (0:ℚ) < 2 := by norm_num
  have h1 : (0:ℚ) < 1 := by norm_num
  have hfirst := (claim_C5_rate_limiter_consume (RateLimiter.init 2 1 2 0) 0 2 h2 h1).2.1
    false (by norm_num [RateLimiter.init, RateLimiter.refill])
  have hstate : ((RateLimiter.init 2 1 2 0).consume 0 2 false).state
      = { rate := 2, per := 1, burst := 2, tokens := 0, lastRefill := 0 } := by
    rw [hfirst]
    norm_num [RateLimiter.init, RateLimiter.refill]
  have hsecond := (claim_C5_rate_limiter_consume
      ((RateLimiter.init 2 1 2 0).consume 0 2 false).state 0 1
      (by rw [hstate]; norm_num) (by rw [hstate]; norm_num)).2.2.2
      (by rw [hstate]; norm_num [RateLimiter.refill])
  refine ⟨h2, h1, by rw [hfirst], by rw [hfirst], hsecond.1, ?_⟩
  rw [hsecond.2, hstate]
  norm_num [RateLimiter.refill]

/-- C10: with `wait=true`, `consume` always grants the request after at
most one sleep: the wait branch sleeps once for the computed deficit
time, refills, and deducts the tokens unconditionally — even when the
refill after sleeping (capped at `burst`) cannot cover the request, in
which case the token count simply goes negative.  It never returns
`false` and never sleeps twice. -/
theorem claim_C10_consume_wait_always_grants (rl : RateLimiter) (now n : ℚ)
    (hn : 1 ≤ n) :
    (rl.consume now n true).granted = true
    ∧ (rl.consume now n true).slept.length ≤ 1 := by
  by_cases h : n ≤ (rl.refill now).tokens
  · simp only [RateLimiter.consume]
    rw [if_pos h]
    exact ⟨rfl, by simp⟩
  · simp only [RateLimiter.consume]
    rw [if_neg h]
    exact ⟨rfl, by simp⟩

/-- C10 witness: requesting n=5 tokens from a limiter with burst=2 (so
even a full bucket plus the post-sleep refill cannot cover the request):
the call still returns `true` after a single sleep, leaving the bucket at
-3 tokens. -/
theorem claim_C10_consume_wait_always_grants_witness :
    1 ≤ (5 : ℚ)
    ∧ ((RateLimiter.init 2 1 2 0).consume 0 5 true).granted = true
    ∧ ((RateLimiter.init 2 1 2 0).consume 0 5 true).slept.length ≤ 1
    ∧ ((RateLimiter.init 2 1 2 0).consume 0 5 true).state.tokens = -3 := by
  have h := claim_C10_consume_wait_always_grants (RateLimiter.init 2 1 2 0) 0 5 (by norm_num)
  refine ⟨by norm_num, h.1, h.2, ?_⟩
  norm_num [RateLimiter.consume, RateLimiter.refill, RateLimiter.init]

/-- C8: when the stored blob for a file's cache key fails to deserialize,
`TranscriptionCache.get` deletes the offending entry and returns a miss
(`None`) instead of propagating the error, and a subsequent `get` for the
same file is again a miss, without touching the store. -/
theorem claim_C8_corrupt_cache_recovery (store : CacheStore) (absPath : String)
    (stats : Option (ℕ × ℚ))
    (h : store.lookup (TranscriptionCache.generate_cache_key absPath stats)
          = some Blob.corrupt) :
    (TranscriptionCache.get store absPath stats).1 = none
    ∧ ((TranscriptionCache.get store absPath stats).2).lookup
        (TranscriptionCache.generate_cache_key absPath stats) = none
    ∧ (TranscriptionCache.get (TranscriptionCache.get store absPath stats).2
        absPath stats).1 = none
    ∧ (TranscriptionCache.get (TranscriptionCache.get store absPath stats).2
        absPath stats).2 = (TranscriptionCache.get store absPath stats).2 := by
  have h1 : TranscriptionCache.get store absPath stats
      = (none, store.erase (TranscriptionCache.generate_cache_key absPath stats)) := by
    simp only [TranscriptionCache.get, h]
  have h2 := CacheStore.lookup_erase store
    (TranscriptionCache.generate_cache_key absPath stats)
  have h3 : TranscriptionCache.get
      (store.erase (TranscriptionCache.generate_cache_key absPath stats)) absPath stats
      = (none, store.erase (TranscriptionCache.generate_cache_key absPath stats)) := by
    simp only [TranscriptionCache.get, h2]
  rw [h1]
  exact ⟨rfl, h2, by rw [h3], by rw [h3]⟩

/-- C8 witness: a one-entry store holding a corrupt blob under the key of
`/v/a.mp4` (size 10, mtime 5): both `get` calls miss and the entry is
gone. -/
theorem claim_C8_corrupt_cache_recovery_witness :
    ([(TranscriptionCache.generate_cache_key "/v/a.mp4" (some (10, 5)), Blob.corrupt)]
        : CacheStore).lookup
      (TranscriptionCache.generate_cache_key "/v/a.mp4" (some (10, 5)))
        = some Blob.corrupt
    ∧ (TranscriptionCache.get
        [(TranscriptionCache.generate_cache_key "/v/a.mp4" (some (10, 5)), Blob.corrupt)]
        "/v/a.mp4" (some (10, 5))).1 = none
    ∧ (TranscriptionCache.get (TranscriptionCache.get
        [(TranscriptionCache.generate_cache_key "/v/a.mp4" (some (10, 5)), Blob.corrupt)]
        "/v/a.mp4" (some (10, 5))).2 "/v/a.mp4" (some (10, 5))).1 = none := by
  have hl : ([(TranscriptionCache.generate_cache_key "/v/a.mp4" (some (10, 5)),
      Blob.corrupt)] : CacheStore).lookup
      (TranscriptionCache.generate_cache_key "/v/a.mp4" (some (10, 5)))
        = some Blob.corrupt := by
    simp [CacheStore.lookup]
  have h := claim_C8_corrupt_cache_recovery
    [(TranscriptionCache.generate_cache_key "/v/a.mp4" (some (10, 5)), Blob.corrupt)]
    "/v/a.mp4" (some (10, 5)) hl
  exact ⟨hl, h.1, h.2.2.1⟩

/-- C7: building the lazy store from any finite utterance list and
draining its iterator twice — each drain beginning with `__iter__`'s
cursor reset — yields two complete sequences, each equal element-wise to
the original list and hence to each other, with the original length. -/
theorem claim_C7_lazy_store_restartable (us : List Utterance) :
    ((UtteranceIterator.init (save_utterances_to_file us)).drain.1 = us)
    ∧ ((UtteranceIterator.init (save_utterances_to_file us)).drain.2.drain.1 = us)
    ∧ ((UtteranceIterator.init (save_utterances_to_file us)).drain.1
        = (UtteranceIterator.init (save_utterances_to_file us)).drain.2.drain.1)
    ∧ ((UtteranceIterator.init (save_utterances_to_file us)).drain.1.length = us.length) := by
  have hz : iterate (save_utterances_to_file us) 0 = us := by
    have := iterate_save us []
    simpa using this
  have h1 : (UtteranceIterator.init (save_utterances_to_file us)).drain.1 = us := by
    simp only [UtteranceIterator.drain, UtteranceIterator.iter, UtteranceIterator.init]
    exact hz
  have h2 : (UtteranceIterator.init (save_utterances_to_file us)).drain.2.drain.1 = us := by
    simp only [UtteranceIterator.drain, UtteranceIterator.iter, UtteranceIterator.init]
    exact hz
  exact ⟨h1, h2, by rw [h1, h2], by rw [h1]⟩

/-- C2 counterexample: the class runs no cleanup when the owning scope
ends — its only cleanup hook is the `__del__` finalizer, which runs at
garbage-collection finalization.  This refutes "deleted at the moment the
store's owning scope ends ... via explicit scoped release rather than
implicit garbage-collection finalization". -/
theorem claim_C2_counterexample :
    cleanupRunsOn LifecycleEvent.scopeEnd = false
    ∧ cleanupRunsOn LifecycleEvent.gcFinalize = true := by
  exact ⟨rfl, rfl⟩

/-- C2 amended: for a store that created its own temporary utterances
file, the deletion happens in the `__del__` finalizer — i.e. at implicit
garbage-collection finalization, not at scope end — and the finalizer's
guard does remove the file, since `mkstemp` places it under
`tempfile.gettempdir()`. -/
theorem claim_C2_cleanup_in_finalizer (tempDir unique : String) :
    cleanupRunsOn LifecycleEvent.gcFinalize = true
    ∧ cleanupRunsOn LifecycleEvent.scopeEnd = false
    ∧ delRemovesFile (some (mkstempPath tempDir unique)) tempDir = true := by
  refine ⟨rfl, rfl, ?_⟩
  simp only [delRemovesFile, mkstempPath, Bool.and_eq_true]
  constructor
  · rw [bne_iff_ne]
    intro hcontra
    have hlen : (tempDir ++ "/utterances_" ++ unique ++ ".jsonl").length
        = tempDir.length + "/utterances_".length + unique.length + ".jsonl".length := by
      simp [String.length_append]
    rw [hcontra] at hlen
    have h0 : ("" : String).length = 0 := rfl
    have h12 : ("/utterances_" : String).length = 12 := rfl
    have h6 : (".jsonl" : String).length = 6 := rfl
    rw [h0, h12, h6] at hlen
    omega
  · rw [List.isPrefixOf_iff_prefix]
    have hdata : (tempDir ++ "/utterances_" ++ unique ++ ".jsonl").data
        = tempDir.data ++ ("/utterances_".data ++ (unique.data ++ ".jsonl".data)) := by
      simp [String.data_append]
    rw [hdata]
    exact List.prefix_append _ _

/-- C9 evidence (code bug): on a cache hit (caching enabled, not forced,
fingerprint present with a readable blob, no cancellation), all remaining
stages are indeed skipped — no collaborator events occur and the cached
result is returned — but the final progress report is
`("Processamento concluído", 6, 5)`: the code intends to "report
completion of all steps" (source comment, line 319) yet passes
`total_steps` as the *step increment*, so the callback receives
`current_step + total_steps = 1 + 5 = 6` out of `5`, which is not equal
to the total. -/
theorem claim_C9_cache_hit_progress (env : PVEnv) (store : CacheStore)
    (d : SerializedResult)
    (hc : env.useCache = true) (hf : env.forceReprocess = false)
    (hv : env.validationOk = true) (hx : env.cancelAtCheck = none)
    (hhit : store.lookup (TranscriptionCache.generate_cache_key env.absPath env.fileStats)
        = some (Blob.ok d)) :
    (process_video env store).events = []
    ∧ (process_video env store).result
        = .ok (.eager { utterances := d.utterances, text := d.text,
                        audio_file := d.audio_file })
    ∧ (process_video env store).progress.getLast?
        = some ("Processamento concluído", 6, 5)
    ∧ (6 : ℚ) ≠ 5 := by
  have hget : TranscriptionCache.get store env.absPath env.fileStats
      = (some { utterances := d.utterances, text := d.text, audio_file := d.audio_file },
         store) := by
    simp only [TranscriptionCache.get, hhit]
  refine ⟨?_, ?_, ?_, by norm_num⟩
  · simp [process_video, hv, hx, hc, hf, hget, cancelledAt_none]
  · simp [process_video, hv, hx, hc, hf, hget, cancelledAt_none]
  · simp [process_video, hv, hx, hc, hf, hget, cancelledAt_none]

/-- C9 witness: a concrete cache-hit call — the progress callback's last
invocation reports current = 6 against total = 5. -/
theorem claim_C9_cache_hit_progress_witness :
    (testEnv.useCache = true) ∧ (testEnv.forceReprocess = false)
    ∧ (testEnv.validationOk = true) ∧ (testEnv.cancelAtCheck = none)
    ∧ (((TranscriptionCache.generate_cache_key "/v/a.mp4" (some (10, 5)),
          Blob.ok { utterances := [], text := "hi", audio_file := "out/a1.mp3" })
          :: ([] : CacheStore)).lookup
        (TranscriptionCache.generate_cache_key testEnv.absPath testEnv.fileStats)
        = some (Blob.ok { utterances := [], text := "hi", audio_file := "out/a1.mp3" }))
    ∧ (process_video testEnv
        [(TranscriptionCache.generate_cache_key "/v/a.mp4" (some (10, 5)),
          Blob.ok { utterances := [], text := "hi", audio_file := "out/a1.mp3" })]).progress.getLast?
        = some ("Processamento concluído", 6, 5) := by
  have hl : (((TranscriptionCache.generate_cache_key "/v/a.mp4" (some (10, 5)),
        Blob.ok { utterances := [], text := "hi", audio_file := "out/a1.mp3" })
        :: ([] : CacheStore))).lookup
      (TranscriptionCache.generate_cache_key testEnv.absPath testEnv.fileStats)
      = some (Blob.ok { utterances := [], text := "hi", audio_file := "out/a1.mp3" }) := by
    simp [CacheStore.lookup, testEnv]
  have h := claim_C9_cache_hit_progress testEnv
    [(TranscriptionCache.generate_cache_key "/v/a.mp4" (some (10, 5)),
      Blob.ok { utterances := [], text := "hi", audio_file := "out/a1.mp3" })]
    { utterances := [], text := "hi", audio_file := "out/a1.mp3" }
    rfl rfl rfl rfl hl
  exact ⟨rfl, rfl, rfl, rfl, hl, h.2.2.1⟩

/-- C1 counterexample: with caching enabled, `force_reprocess` false and
unchanged file stats, a transcription whose utterance count exceeds the
large-transcription threshold makes the first call return the
`OptimizedTranscriptionResult` wrapper, while the second call returns the
eager `TranscriptionResult` rebuilt from the cache blob: the
transcription collaborator runs exactly once, but the second call's
return value is *not equal* to the first call's. -/
theorem claim_C1_counterexample :
    (largeEnv.useCache = true) ∧ (largeEnv.forceReprocess = false)
    ∧ ((process_video largeEnv []).events.count Event.transcribe = 1)
    ∧ ((process_video largeEnv (process_video largeEnv []).store).events.count
        Event.transcribe = 0)
    ∧ (process_video largeEnv (process_video largeEnv []).store).result
        ≠ (process_video largeEnv []).result := by
  refine ⟨rfl, rfl, by decide, by decide, by decide⟩

/-- C1 amended: under the claim's premises (caching on, not forced,
unchanged size+mtime, cold cache, collaborators succeeding, no
cancellation), the two calls invoke the transcription collaborator
exactly once in total — the second call performs no collaborator calls at
all and is answered from the cache — and the second call returns the
eager `TranscriptionResult` with the same utterances, text and audio
file as the first call's result.  When the first call's result stayed in
eager form (utterance count within the threshold, or the optimized model
disabled), the second call's value is equal to the first call's; when the
first call wrapped it as an `OptimizedTranscriptionResult`, the second
call returns the content-equal eager form instead (see the
counterexample). -/
theorem claim_C1_cache_idempotence (env : PVEnv) (store : CacheStore)
    (utts : List Utterance) (text : String)
    (hc : env.useCache = true) (hf : env.forceReprocess = false)
    (hv : env.validationOk = true) (hx : env.cancelAtCheck = none)
    (hconv : env.convertOk = true) (ht : env.transcript = some (utts, text))
    (hs : env.saveOk = true) (hsa : env.saveAudio = false)
    (hmiss : store.lookup (TranscriptionCache.generate_cache_key env.absPath env.fileStats)
        = none) :
    ((process_video env store).events.count Event.transcribe = 1)
    ∧ ((process_video env (process_video env store).store).events = [])
    ∧ ((process_video env (process_video env store).store).result
        = .ok (.eager { utterances := utts, text := text, audio_file := env.audioFile }))
    ∧ (∀ r₁, (process_video env store).result = .ok r₁ →
        r₁.content = (utts, text, env.audioFile))
    ∧ ((env.useOptimized = false ∨ utts.length ≤ env.largeThreshold) →
        (process_video env (process_video env store).store).result
          = (process_video env store).result) := by
  have hget : TranscriptionCache.get store env.absPath env.fileStats = (none, store) := by
    simp only [TranscriptionCache.get, hmiss]
  have hres1 : (process_video env store).result
      = .ok (if decide (env.largeThreshold < utts.length) && env.useOptimized
             then PVResult.optimized utts text env.audioFile
             else PVResult.eager { utterances := utts, text := text,
                                   audio_file := env.audioFile }) := by
    simp [process_video, hv, hx, hc, hf, hconv, ht, hs, hget, cancelledAt_none]
  have hstore1 : (process_video env store).store
      = TranscriptionCache.set store env.absPath env.fileStats utts text env.audioFile := by
    by_cases hopt : (decide (env.largeThreshold < utts.length) && env.useOptimized) = true
    · simp [process_video, hv, hx, hc, hf, hconv, ht, hs, hget, cancelledAt_none, hopt,
        PVResult.content]
    · simp only [Bool.not_eq_true] at hopt
      simp [process_video, hv, hx, hc, hf, hconv, ht, hs, hget, cancelledAt_none, hopt,
        PVResult.content]
  have hev1 : (process_video env store).events
      = [.convert, .transcribe, .save, .cacheWrite, .deleteAudio] := by
    simp [process_video, hv, hx, hc, hf, hconv, ht, hs, hsa, hget, cancelledAt_none]
  have hlook2 : (TranscriptionCache.set store env.absPath env.fileStats utts text
      env.audioFile).lookup (TranscriptionCache.generate_cache_key env.absPath env.fileStats)
      = some (Blob.ok { utterances := utts, text := text, audio_file := env.audioFile }) := by
    simp [TranscriptionCache.set, CacheStore.lookup_insert]
  have hget2 : TranscriptionCache.get
      (TranscriptionCache.set store env.absPath env.fileStats utts text env.audioFile)
      env.absPath env.fileStats
      = (some { utterances := utts, text := text, audio_file := env.audioFile },
         TranscriptionCache.set store env.absPath env.fileStats utts text env.audioFile) := by
    simp only [TranscriptionCache.get, hlook2]
  have hev2 : (process_video env (process_video env store).store).events = [] := by
    rw [hstore1]
    simp [process_video, hv, hx, hc, hf, hget2, cancelledAt_none]
  have hres2 : (process_video env (process_video env store).store).result
      = .ok (.eager { utterances := utts, text := text, audio_file := env.audioFile }) := by
    rw [hstore1]
    simp [process_video, hv, hx, hc, hf, hget2, cancelledAt_none]
  refine ⟨by rw [hev1]; decide, hev2, hres2, ?_, ?_⟩
  · intro r₁ hr₁
    rw [hres1] at hr₁
    cases hr₁
    by_cases hopt : (decide (env.largeThreshold < utts.length) && env.useOptimized) = true
    · simp [hopt, PVResult.content]
    · simp only [Bool.not_eq_true] at hopt
      simp [hopt, PVResult.content]
  · intro hcase
    have hopt : (decide (env.largeThreshold < utts.length) && env.useOptimized) = false := by
      rcases hcase with h | h
      · simp [h]
      · simp [Nat.not_lt.mpr h]
    rw [hres2, hres1, hopt]
    simp

/-- C1 witness: a concrete small-transcription run from a cold cache —
the transcription collaborator runs once, the second call performs no
collaborator calls and returns exactly the first call's result. -/
theorem claim_C1_cache_idempotence_witness :
    (testEnv.useCache = true) ∧ (testEnv.forceReprocess = false)
    ∧ (([] : CacheStore).lookup
        (TranscriptionCache.generate_cache_key testEnv.absPath testEnv.fileStats) = none)
    ∧ ((process_video testEnv []).events.count Event.transcribe = 1)
    ∧ ((process_video testEnv (process_video testEnv []).store).events = [])
    ∧ ((process_video testEnv (process_video testEnv []).store).result
        = (process_video testEnv []).result) := by
  have h := claim_C1_cache_idempotence testEnv [] [⟨"Speaker A", "hi", none, none⟩] "hi"
    rfl rfl rfl rfl rfl rfl rfl rfl rfl
  exact ⟨rfl, rfl, rfl, h.1, h.2.1, h.2.2.2.2 (Or.inr (by norm_num [testEnv]))⟩

/-- C4 counterexample: no `CancellationError` class exists in
src/exceptions.py, and `process_video` does not generally fail with a
cancellation-typed error when cancellation arrives at a stage boundary.
Concretely: a request first observed at the check before the cache-write
stage (check 6) is swallowed by that stage's best-effort `try/except` —
the call *succeeds* — and a request first observed at the check after
conversion (check 3) is re-wrapped by the conversion stage's `except`
clause and surfaces as a `ServiceError`, not as any cancellation
error. -/
theorem claim_C4_counterexample :
    (({ testEnv with cancelAtCheck := some 6 } : PVEnv).cancelAtCheck = some 6)
    ∧ ((process_video { testEnv with cancelAtCheck := some 6 } []).result
        = .ok (.eager { utterances := [⟨"Speaker A", "hi", none, none⟩], text := "hi",
                        audio_file := "out/a1.mp3" }))
    ∧ (({ testEnv with cancelAtCheck := some 3 } : PVEnv).cancelAtCheck = some 3)
    ∧ ((process_video { testEnv with cancelAtCheck := some 3 } []).result
        = .error (.serviceError ("Error during audio conversion: " ++ cancelMsg))) := by
  refine ⟨rfl, by decide, rfl, by decide⟩

/-- C4 amended: cancellation observed at a stage boundary does suppress
all later collaborator side effects, but the resulting failure is never a
dedicated cancellation error: after validation or after the cache lookup
the bare `AutoMeetAIError` base class propagates; after conversion /
transcription / persistence the boundary check sits inside that stage's
`try`, so the cancellation is re-wrapped as `ServiceError` /
`TranscriptionError` / `FormattingError` respectively; and at the
best-effort cache-write and cleanup boundaries the cancellation is
swallowed — the call returns its result successfully, merely skipping
those steps. -/
theorem claim_C4_cancellation_ordering (env : PVEnv) (store : CacheStore)
    (utts : List Utterance) (text : String)
    (hc : env.useCache = true) (hf : env.forceReprocess = false)
    (hv : env.validationOk = true)
    (hconv : env.convertOk = true) (ht : env.transcript = some (utts, text))
    (hs : env.saveOk = true) (hsa : env.saveAudio = false)
    (hmiss : store.lookup (TranscriptionCache.generate_cache_key env.absPath env.fileStats)
        = none) :
    (env.cancelAtCheck = some 1 →
      (process_video env store).events = []
      ∧ (process_video env store).result = .error (.base cancelMsg))
    ∧ (env.cancelAtCheck = some 2 →
      (process_video env store).events = []
      ∧ (process_video env store).result = .error (.base cancelMsg))
    ∧ (env.cancelAtCheck = some 3 →
      (process_video env store).events = [.convert]
      ∧ (process_video env store).result
          = .error (.serviceError ("Error during audio conversion: " ++ cancelMsg)))
    ∧ (env.cancelAtCheck = some 4 →
      (process_video env store).events = [.convert, .transcribe]
      ∧ (process_video env store).result
          = .error (.transcriptionError ("Error during transcription: " ++ cancelMsg)))
    ∧ (env.cancelAtCheck = some 5 →
      (process_video env store).events = [.convert, .transcribe, .save]
      ∧ (process_video env store).result
          = .error (.formattingError
              ("Error saving to " ++ env.outputFormat ++ " format: " ++ cancelMsg)))
    ∧ (env.cancelAtCheck = some 6 →
      (process_video env store).events = [.convert, .transcribe, .save]
      ∧ ∃ r, (process_video env store).result = .ok r)
    ∧ (env.cancelAtCheck = some 7 →
      (process_video env store).events = [.convert, .transcribe, .save, .cacheWrite]
      ∧ ∃ r, (process_video env store).result = .ok r)
    ∧ (∀ msg, Err.isDedicatedSubclass (.base msg) = false) := by
  have hget : TranscriptionCache.get store env.absPath env.fileStats = (none, store) := by
    simp only [TranscriptionCache.get, hmiss]
  refine ⟨?_, ?_, ?_, ?_, ?_, ?_, ?_, fun msg => rfl⟩
  · intro hk
    constructor <;>
      simp [process_video, hv, hc, hf, hconv, ht, hs, hsa, hget, hk, cancelledAt_some]
  · intro hk
    constructor <;>
      simp [process_video, hv, hc, hf, hconv, ht, hs, hsa, hget, hk, cancelledAt_some]
  · intro hk
    constructor <;>
      simp [process_video, hv, hc, hf, hconv, ht, hs, hsa, hget, hk, cancelledAt_some]
  · intro hk
    constructor <;>
      simp [process_video, hv, hc, hf, hconv, ht, hs, hsa, hget, hk, cancelledAt_some]
  · intro hk
    constructor <;>
      simp [process_video, hv, hc, hf, hconv, ht, hs, hsa, hget, hk, cancelledAt_some]
  · intro hk
    refine ⟨by simp [process_video, hv, hc, hf, hconv, ht, hs, hsa, hget, hk,
      cancelledAt_some], ?_⟩
    have hres : (process_video env store).result
        = .ok (if decide (env.largeThreshold < utts.length) && env.useOptimized
               then PVResult.optimized utts text env.audioFile
               else PVResult.eager { utterances := utts, text := text,
                                     audio_file := env.audioFile }) := by
      simp [process_video, hv, hc, hf, hconv, ht, hs, hsa, hget, hk, cancelledAt_some]
    exact ⟨_, hres⟩
  · intro hk
    refine ⟨by simp [process_video, hv, hc, hf, hconv, ht, hs, hsa, hget, hk,
      cancelledAt_some], ?_⟩
    have hres : (process_video env store).result
        = .ok (if decide (env.largeThreshold < utts.length) && env.useOptimized
               then PVResult.optimized utts text env.audioFile
               else PVResult.eager { utterances := utts, text := text,
                                     audio_file := env.audioFile }) := by
      simp [process_video, hv, hc, hf, hconv, ht, hs, hsa, hget, hk, cancelledAt_some]
    exact ⟨_, hres⟩

/-- C4 witness: cancellation first observed at the check after the
transcription stage of a concrete run — the persistence stage's `save`
never occurs, and the call fails with a `TranscriptionError` wrapping the
cancellation message. -/
theorem claim_C4_cancellation_ordering_witness :
    (({ testEnv with cancelAtCheck := some 4 } : PVEnv).cancelAtCheck = some 4)
    ∧ (process_video { testEnv with cancelAtCheck := some 4 } []).events
        = [Event.convert, Event.transcribe]
    ∧ (process_video { testEnv with cancelAtCheck := some 4 } []).result
        = .error (.transcriptionError ("Error during transcription: " ++ cancelMsg)) := by
  have h := (claim_C4_cancellation_ordering { testEnv with cancelAtCheck := some 4 } []
    [⟨"Speaker A", "hi", none, none⟩] "hi" rfl rfl rfl rfl rfl rfl rfl rfl).2.2.2.1 rfl
  exact ⟨rfl, h.1, h.2⟩

/-- C3 counterexample: cancellation is requested through the internal
manager — the flag is already set when `process_videos` starts, and
`request_cancellation` is called again while item 0 runs — yet the batch
dispatches and completes *both* items and returns normally with no error:
`process_videos` resets the internal flag on entry, the loop and worker
checks consult only the external callback, and each item's
`process_video` resets the flag again.  This refutes "(a) refuses to
dispatch jobs that have not yet started ... (c) raises a typed
cancellation error to the caller". -/
theorem claim_C3_counterexample :
    (c3Env.internalFlag0 = true) ∧ (c3Env.reqDuring 0 = true)
    ∧ ((process_videos c3Env []).2 = none)
    ∧ ((process_videos c3Env []).1.results.map Prod.fst = ["a.mp4", "b.mp4"])
    ∧ ((process_videos c3Env []).1.results.all (fun p => p.2.isSome) = true) := by
  refine ⟨rfl, rfl, by decide, by decide, by decide⟩

/-- C3 amended: after the batch starts, only the *external* cancellation
callback is consulted by the dispatch-time checks.  (i) If the external
callback never reports cancellation, the batch dispatches every file and
returns without error, regardless of the internal manager's flag on entry
and of any `request_cancellation` made during processing (the flag is
reset at batch start and by every item).  (ii) When the external callback
first reports `true` at the pre-dispatch check of item `j`, items
`j, j+1, ...` are neither dispatched nor recorded, no collaborator event
of theirs occurs, and the batch raises the bare `AutoMeetAIError` base
class (src/exceptions.py defines no dedicated cancellation subclass). -/
theorem claim_C3_batch_cancellation (env : BatchEnv) (store : CacheStore) (j : ℕ)
    (hcont : env.continue_on_error = true)
    (hInit : env.externalAtInit = false)
    (hW : ∀ k, env.externalAtWorkerCheck k = false) :
    ((∀ k, env.externalAtLoopCheck k = false) →
      (process_videos env store).2 = none
      ∧ (process_videos env store).1.results.length = env.files.length)
    ∧ ((∀ k, k < j → env.externalAtLoopCheck k = false) →
       env.externalAtLoopCheck j = true →
       j < env.files.length →
        (process_videos env store).2 = some (.base "Batch processing cancelled by user")
        ∧ (process_videos env store).1.results.length = j
        ∧ (∀ p ∈ (process_videos env store).1.trace, p.1 < j)
        ∧ Err.isDedicatedSubclass (.base "Batch processing cancelled by user") = false) := by
  have hpv : process_videos env store
      = seqLoop env 0 env.files
          { store := store, internalFlag := false, results := [], errors := [],
            trace := [] } := by
    simp [process_videos, hInit]
  constructor
  · intro hLoop
    obtain ⟨h1, h2⟩ := seqLoop_complete env hcont hLoop hW env.files 0
      { store := store, internalFlag := false, results := [], errors := [], trace := [] }
    rw [hpv]
    exact ⟨h1, by simpa using h2⟩
  · intro hbefore hj hlt
    obtain ⟨h1, h2, h3⟩ := seqLoop_cancelAt env j hcont hW hj env.files 0
      { store := store, internalFlag := false, results := [], errors := [], trace := [] }
      (by omega) (by simpa using hlt) (fun k _ hk => hbefore k hk)
    rw [hpv]
    refine ⟨h1, by simpa using h2, ?_, rfl⟩
    intro p hp
    rcases h3 p hp with hmem | hsmall
    · simp at hmem
    · exact hsmall

/-- C3 witness: the three-file batch whose external callback fires at the
pre-dispatch check of item 1 — only item 0 is recorded, no collaborator
event of items ≥ 1 occurs, and the raised error is the bare
`AutoMeetAIError` base class. -/
theorem claim_C3_batch_cancellation_witness :
    (c3ExtEnv.continue_on_error = true) ∧ (c3ExtEnv.externalAtInit = false)
    ∧ (c3ExtEnv.externalAtLoopCheck 1 = true) ∧ (1 < c3ExtEnv.files.length)
    ∧ ((process_videos c3ExtEnv []).2
        = some (.base "Batch processing cancelled by user"))
    ∧ ((process_videos c3ExtEnv []).1.results.length = 1)
    ∧ (∀ p ∈ (process_videos c3ExtEnv []).1.trace, p.1 < 1) := by
  have h := (claim_C3_batch_cancellation c3ExtEnv [] 1 rfl rfl (fun k => rfl)).2
    (fun k hk => by
      have : k = 0 := by omega
      subst this
      rfl)
    rfl (by norm_num [c3ExtEnv, c3Env])
  exact ⟨rfl, rfl, rfl, by norm_num [c3ExtEnv, c3Env], h.1, h.2.1, h.2.2.1⟩

/-- C6: in a batch processed with `continue_on_error = true` (no
cancellation) in which exactly one input's conversion collaborator fails
and every other item succeeds, `process_videos` completes without
raising, records one entry per input, with `None` exactly at the failing
input and a non-`None` result for every other input. -/
theorem claim_C6_batch_isolation (env : BatchEnv) (store : CacheStore)
    (r : ℕ → PVResult) (bad : ℕ)
    (hcont : env.continue_on_error = true)
    (hInit : env.externalAtInit = false)
    (hLoop : ∀ k, env.externalAtLoopCheck k = false)
    (hW : ∀ k, env.externalAtWorkerCheck k = false)
    (hbadlt : bad < env.files.length)
    (hgood : ∀ k, k ≠ bad → ∀ s, (process_video (env.itemEnv k) s).result
        = .ok (r k))
    (hfail : ∀ s, (process_video (env.itemEnv bad) s).result
        = .error (.serviceError "Audio conversion failed")) :
    ((process_videos env store).2 = none)
    ∧ ((process_videos env store).1.results
        = entryOf (fun k => if k = bad
            then .error (.serviceError "Audio conversion failed")
            else .ok (r k)) 0 env.files)
    ∧ ((process_videos env store).1.results.length = env.files.length)
    ∧ ((process_videos env store).1.results.countP (fun p => p.2.isNone) = 1)
    ∧ (∀ f, env.files[bad]? = some f →
        (process_videos env store).1.results[bad]? = some (f, none)) := by
  have hpv : process_videos env store
      = seqLoop env 0 env.files
          { store := store, internalFlag := false, results := [], errors := [],
            trace := [] } := by
    simp [process_videos, hInit]
  have hout : ∀ k s, 0 ≤ k → k < 0 + env.files.length →
      (process_video (env.itemEnv k) s).result
        = (fun k => if k = bad
            then Except.error (Err.serviceError "Audio conversion failed")
            else Except.ok (r k)) k := by
    intro k s _ _
    by_cases hk : k = bad
    · subst hk
      simp only [if_pos rfl]
      exact hfail s
    · simp only [if_neg hk]
      exact hgood k hk s
  obtain ⟨h1, h2⟩ := seqLoop_outcomes env _ hcont hLoop hW env.files 0
    { store := store, internalFlag := false, results := [], errors := [], trace := [] }
    hout
  have hres : (process_videos env store).1.results
      = entryOf (fun k => if k = bad
          then .error (.serviceError "Audio conversion failed")
          else .ok (r k)) 0 env.files := by
    rw [hpv, h2]
    simp
  have hlen : ∀ (fs : List String) (i : ℕ),
      (entryOf (fun k => if k = bad
          then Except.error (Err.serviceError "Audio conversion failed")
          else Except.ok (r k)) i fs).length = fs.length := by
    intro fs
    induction fs with
    | nil => intro i; rfl
    | cons f rest ih => intro i; simp [entryOf, ih (i + 1)]
  refine ⟨by rw [hpv]; exact h1, hres, by rw [hres]; exact hlen env.files 0, ?_, ?_⟩
  · rw [hres, entryOf_countP]
    rw [if_pos ⟨Nat.zero_le bad, by omega⟩]
  · intro f hf
    rw [hres, entryOf_getElem]
    simp [hf, Except.toOption]

/-- C6 witness: the concrete five-file batch with input #3 (index 2)
failing conversion — the batch completes, every input has an entry,
exactly one entry is `None`, and it is the entry of `"c.mp4"`. -/
theorem claim_C6_batch_isolation_witness :
    (c6Env.continue_on_error = true) ∧ (c6Env.externalAtInit = false)
    ∧ (2 < c6Env.files.length)
    ∧ ((process_videos c6Env []).2 = none)
    ∧ ((process_videos c6Env []).1.results.length = 5)
    ∧ ((process_videos c6Env []).1.results.countP (fun p => p.2.isNone) = 1)
    ∧ ((process_videos c6Env []).1.results[2]? = some ("c.mp4", none)) := by
  have hgood : ∀ k, k ≠ 2 → ∀ s, (process_video (c6Env.itemEnv k) s).result
      = .ok (.eager { utterances := [⟨"Speaker A", "hi", none, none⟩], text := "hi",
                      audio_file := "out/a1.mp3" }) := by
    intro k hk s
    have hitem : c6Env.itemEnv k = goodItem := by
      simp [c6Env, hk]
    rw [hitem]
    rfl
  have hfail : ∀ s, (process_video (c6Env.itemEnv 2) s).result
      = .error (.serviceError "Audio conversion failed") := by
    intro s
    rfl
  have h := claim_C6_batch_isolation c6Env [] (fun _ =>
      .eager { utterances := [⟨"Speaker A", "hi", none, none⟩], text := "hi",
               audio_file := "out/a1.mp3" }) 2
    rfl rfl (fun k => rfl) (fun k => rfl) (by norm_num [c6Env]) hgood hfail
  refine ⟨rfl, rfl, by norm_num [c6Env], h.1, ?_, h.2.2.2.1, h.2.2.2.2 "c.mp4" rfl⟩
  rw [h.2.2.1]
  rfl

end AutoMeetAI

